import Mathlib

/-!
# Verification of the Orion platform reconciliation controller

Shallow embedding of `pkg/apis/platform/v1alpha1/types.go` and the
environment-aware application controller
(`pkg/controllers/application_controller.go`, enhanced revision).

Machine integers (`int32`) are modelled as `Int`; Go strings as `String`;
nil-able pointers as `Option`; Kubernetes API calls (object creation, status
subresource updates, deployment reads) as an explicit `Oracle` describing the
outcome of each call site of one reconciliation pass.  Creation payloads that
no claim depends on (volume sizes, image tags of the infrastructure pods) are
not tracked beyond the created object's name.
-/

namespace Orion

/-- Environment constants (`types.go`, `EnvironmentLocal` / `EnvironmentAWS` /
`EnvironmentAuto`). -/
def environmentLocal : String := "local"

def environmentAWS : String := "aws"

def environmentAuto : String := "auto"

/-- Phase constants (`types.go`). -/
def phasePending : String := "Pending"

def phaseProvisioningInfra : String := "ProvisioningInfrastructure"

def phaseDeploying : String := "Deploying"

def phaseReady : String := "Ready"

def phaseFailed : String := "Failed"

/-- `PostgreSQLSpec` from `types.go`. -/
structure PostgreSQLSpec where
  environment : String := ""
  version : String := ""
  instanceType : String := ""
  storage : Int := 0
  databaseName : String := ""
  localStorage : String := ""
deriving Repr, DecidableEq

/-- `RedisSpec` from `types.go`. -/
structure RedisSpec where
  environment : String := ""
  version : String := ""
  nodeType : String := ""
  memory : String := ""
deriving Repr, DecidableEq

/-- `S3Spec` from `types.go`. -/
structure S3Spec where
  environment : String := ""
  bucketName : String := ""
  versioning : Bool := false
  localStorage : String := ""
deriving Repr, DecidableEq

/-- `InfrastructureSpec` from `types.go`; the per-kind specs are pointers in
Go, hence `Option` here. -/
structure InfrastructureSpec where
  environment : String := ""
  postgresql : Option PostgreSQLSpec := none
  redis : Option RedisSpec := none
  s3 : Option S3Spec := none
deriving Repr, DecidableEq

/-- `ApplicationSpec` from `types.go`.  The Go `map[string]string` for `Env`
is modelled as an association list (iteration order made explicit). -/
structure ApplicationSpec where
  image : String := ""
  port : Int := 0
  replicas : Int := 0
  env : List (String × String) := []
  infrastructure : InfrastructureSpec := {}
deriving Repr, DecidableEq

/-- `ApplicationStatus` from `types.go`.  `LastUpdated` (a wall-clock
timestamp that no claim depends on) is not tracked. -/
structure ApplicationStatus where
  phase : String := ""
  message : String := ""
  readyReplicas : Int := 0
  infrastructureReady : Bool := false
  databaseEndpoint : String := ""
  databaseEnvironment : String := ""
  redisEndpoint : String := ""
  redisEnvironment : String := ""
  s3BucketName : String := ""
  s3Endpoint : String := ""
  s3Environment : String := ""
deriving Repr, DecidableEq

/-- The `Application` custom resource: object metadata reduced to the name
(the namespace plays no role in any claim), plus spec and status. -/
structure Application where
  name : String := ""
  spec : ApplicationSpec := {}
  status : ApplicationStatus := {}
deriving Repr, DecidableEq

/-- `Application.UpdateStatus` (`types.go`): sets phase and message (the
`LastUpdated` timestamp is not tracked). -/
def Application.updateStatus (app : Application) (phase message : String) : Application :=
  { app with status := { app.status with phase := phase, message := message } }

/-- `Application.NeedsDatabase` (`types.go`). -/
def Application.needsDatabase (app : Application) : Bool :=
  app.spec.infrastructure.postgresql.isSome

/-- `Application.NeedsCache` (`types.go`). -/
def Application.needsCache (app : Application) : Bool :=
  app.spec.infrastructure.redis.isSome

/-- `Application.NeedsStorage` (`types.go`). -/
def Application.needsStorage (app : Application) : Bool :=
  app.spec.infrastructure.s3.isSome

/-- The resource-level environment string of the PostgreSQL spec, `""` when
the spec pointer is nil (helper for the Go `p != nil && p.Environment != ""`
tests). -/
def Application.pgEnv (app : Application) : String :=
  (app.spec.infrastructure.postgresql.map (·.environment)).getD ""

/-- The resource-level environment string of the Redis spec. -/
def Application.redisEnv (app : Application) : String :=
  (app.spec.infrastructure.redis.map (·.environment)).getD ""

/-- The resource-level environment string of the S3 spec. -/
def Application.s3Env (app : Application) : String :=
  (app.spec.infrastructure.s3.map (·.environment)).getD ""

/-- The bucket name requested in the S3 spec, `""` when absent. -/
def Application.s3SpecBucket (app : Application) : String :=
  (app.spec.infrastructure.s3.map (·.bucketName)).getD ""

/-- `Application.GetDatabaseEnvironment` (`types.go`): resource-level
environment if set, else application-wide environment if set, else `auto`. -/
def Application.getDatabaseEnvironment (app : Application) : String :=
  if app.pgEnv ≠ "" then app.pgEnv
  else if app.spec.infrastructure.environment ≠ "" then app.spec.infrastructure.environment
  else environmentAuto

/-- `Application.GetRedisEnvironment` (`types.go`). -/
def Application.getRedisEnvironment (app : Application) : String :=
  if app.redisEnv ≠ "" then app.redisEnv
  else if app.spec.infrastructure.environment ≠ "" then app.spec.infrastructure.environment
  else environmentAuto

/-- `Application.GetS3Environment` (`types.go`). -/
def Application.getS3Environment (app : Application) : String :=
  if app.s3Env ≠ "" then app.s3Env
  else if app.spec.infrastructure.environment ≠ "" then app.spec.infrastructure.environment
  else environmentAuto

/-- `Application.isLocalEnvironment` (`types.go`): hardcoded to `true`
("For now, default to local").  This, not the controller-side heuristic, is
what the `IsLocal*` deciders call. -/
def Application.isLocalEnvironment (_app : Application) : Bool :=
  true

/-- `Application.IsLocalDatabase` (`types.go`). -/
def Application.isLocalDatabase (app : Application) : Bool :=
  let env := app.getDatabaseEnvironment
  env == environmentLocal || (env == environmentAuto && app.isLocalEnvironment)

/-- `Application.IsLocalRedis` (`types.go`). -/
def Application.isLocalRedis (app : Application) : Bool :=
  let env := app.getRedisEnvironment
  env == environmentLocal || (env == environmentAuto && app.isLocalEnvironment)

/-- `Application.IsLocalS3` (`types.go`). -/
def Application.isLocalS3 (app : Application) : Bool :=
  let env := app.getS3Environment
  env == environmentLocal || (env == environmentAuto && app.isLocalEnvironment)

/-- `Application.ValidateSpec` (`types.go`): returns the error message, or
`none` on success. -/
def Application.validateSpec (app : Application) : Option String :=
  if app.spec.image = "" then some "image is required"
  else if app.spec.port ≠ 0 ∧ (app.spec.port < 1 ∨ app.spec.port > 65535) then
    some "port must be between 1 and 65535"
  else if app.spec.replicas < 0 then some "replicas cannot be negative"
  else none

/-- `Application.GetReplicas` (`types.go`). -/
def Application.getReplicas (app : Application) : Int :=
  if app.spec.replicas ≤ 0 then 1 else app.spec.replicas

/-- `Application.GetPort` (`types.go`). -/
def Application.getPort (app : Application) : Int :=
  if app.spec.port ≤ 0 then 8080 else app.spec.port

/-- The controller-side ambient-environment heuristic
(`ApplicationController.isLocalEnvironment`, application_controller.go):
reads process environment variables.  Note this function is never consulted
by the `IsLocal*` deciders, which use the hardcoded
`Application.isLocalEnvironment` instead. -/
structure ProcessEnv where
  awsAccessKeyId : String := ""
  awsSecretAccessKey : String := ""
  kubernetesServiceHost : String := ""
  awsRegion : String := ""
  gcpProject : String := ""
deriving Repr, DecidableEq

/-- `ApplicationController.isLocalEnvironment` (application_controller.go). -/
def controllerIsLocalEnvironment (e : ProcessEnv) : Bool :=
  if e.awsAccessKeyId ≠ "" ∧ e.awsSecretAccessKey ≠ "" then false
  else if e.kubernetesServiceHost ≠ "" ∧ (e.awsRegion ≠ "" ∨ e.gcpProject ≠ "") then false
  else true

/-! ## The controller (application_controller.go, enhanced revision)

Each Kubernetes API call of a reconciliation pass is resolved by an `Oracle`:
one field per `Create` call site (the call may succeed, find the object
already existing, or fail), one `Bool` per `Status().Update` call site
(`true` = the write reaches the store), the result of the deployment read in
`checkApplicationReady`, and the wall clock read by `provisionAWSS3`. -/

/-- Result of a Kubernetes `Create` call. -/
inductive CreateRes
  | ok
  | alreadyExists
  | err
deriving Repr, DecidableEq

/-- Externally visible side effects of a provisioning call: a `Create` of a
named object, or a write of the status subresource. -/
inductive Effect
  | createObj (name : String)
  | statusUpdate
deriving Repr, DecidableEq

/-- Outcomes of the external calls made during one reconciliation pass. -/
structure Oracle where
  pvcCreate : CreateRes := .ok
  postgresCreate : CreateRes := .ok
  postgresSvcCreate : CreateRes := .ok
  redisCreate : CreateRes := .ok
  redisSvcCreate : CreateRes := .ok
  minioCreate : CreateRes := .ok
  minioSvcCreate : CreateRes := .ok
  deploymentCreate : CreateRes := .ok
  serviceCreate : CreateRes := .ok
  updPhase : Bool := true
  updInfra : Bool := true
  updFail : Bool := true
  updReady : Bool := true
  updValid : Bool := true
  deploymentReadyReplicas : Option Int := none
  nowUnix : Int := 0
deriving Repr, DecidableEq

/-- Result of one provisioning call: error (if any), the observed-state
record as mutated in memory, and the external effects performed. -/
structure ProvResult where
  err : Option String := none
  status : ApplicationStatus
  effects : List Effect := []
deriving Repr, DecidableEq

/-- `provisionLocalPostgreSQL`: creates a PVC, a StatefulSet and a Service
(each tolerating already-exists), then records the endpoint
`"<name>-postgres:5432"` and local placement in the in-memory status.  No
status write is performed. -/
def provisionLocalPostgreSQL (o : Oracle) (app : Application) : ProvResult :=
  let pvcName := app.name ++ "-postgres-pvc"
  let objName := app.name ++ "-postgres"
  if o.pvcCreate = .err then
    { err := some "failed to create PostgreSQL PVC", status := app.status,
      effects := [.createObj pvcName] }
  else if o.postgresCreate = .err then
    { err := some "failed to create PostgreSQL StatefulSet", status := app.status,
      effects := [.createObj pvcName, .createObj objName] }
  else if o.postgresSvcCreate = .err then
    { err := some "failed to create PostgreSQL Service", status := app.status,
      effects := [.createObj pvcName, .createObj objName, .createObj objName] }
  else
    { err := none,
      status := { app.status with
        databaseEndpoint := app.name ++ "-postgres:5432",
        databaseEnvironment := environmentLocal },
      effects := [.createObj pvcName, .createObj objName, .createObj objName] }

/-- `provisionLocalRedis`: creates a Deployment and a Service, then records
the endpoint `"<name>-redis:6379"` and local placement.  No status write. -/
def provisionLocalRedis (o : Oracle) (app : Application) : ProvResult :=
  let objName := app.name ++ "-redis"
  if o.redisCreate = .err then
    { err := some "failed to create Redis Deployment", status := app.status,
      effects := [.createObj objName] }
  else if o.redisSvcCreate = .err then
    { err := some "failed to create Redis Service", status := app.status,
      effects := [.createObj objName, .createObj objName] }
  else
    { err := none,
      status := { app.status with
        redisEndpoint := app.name ++ "-redis:6379",
        redisEnvironment := environmentLocal },
      effects := [.createObj objName, .createObj objName] }

/-- `provisionLocalS3`: creates a MinIO Deployment and Service, resolves the
bucket name (default `"default-bucket"`), then records the bucket, the
endpoint `"<name>-s3:9000"` and local placement.  No status write. -/
def provisionLocalS3 (o : Oracle) (app : Application) : ProvResult :=
  let objName := app.name ++ "-s3"
  if o.minioCreate = .err then
    { err := some "failed to create MinIO Deployment", status := app.status,
      effects := [.createObj objName] }
  else if o.minioSvcCreate = .err then
    { err := some "failed to create MinIO Service", status := app.status,
      effects := [.createObj objName, .createObj objName] }
  else
    let bucketName := if app.s3SpecBucket ≠ "" then app.s3SpecBucket else "default-bucket"
    { err := none,
      status := { app.status with
        s3BucketName := bucketName,
        s3Endpoint := app.name ++ "-s3:9000",
        s3Environment := environmentLocal },
      effects := [.createObj objName, .createObj objName] }

/-- `provisionAWSPostgreSQL` (simulated): records a managed-service endpoint
derived from the record name; performs no external call. -/
def provisionAWSPostgreSQL (app : Application) : ApplicationStatus :=
  { app.status with
    databaseEndpoint := app.name ++ "-db.cluster-xyz.us-west-2.rds.amazonaws.com",
    databaseEnvironment := environmentAWS }

/-- `provisionAWSRedis` (simulated): records a managed-service endpoint
derived from the record name; performs no external call. -/
def provisionAWSRedis (app : Application) : ApplicationStatus :=
  { app.status with
    redisEndpoint := app.name ++ "-cache.xyz.cache.amazonaws.com",
    redisEnvironment := environmentAWS }

/-- `provisionAWSS3` (simulated): default bucket name is
`"<name>-storage-<unix time>"` (overridden by an explicit request), records
the bucket and cloud placement.  No `S3Endpoint` is recorded. -/
def provisionAWSS3 (now : Int) (app : Application) : ApplicationStatus :=
  let bucketName :=
    if app.s3SpecBucket ≠ "" then app.s3SpecBucket
    else app.name ++ "-storage-" ++ toString now
  { app.status with s3BucketName := bucketName, s3Environment := environmentAWS }

/-- The database block of `provisionInfrastructure`: dispatches on the
resolved placement; a local-provisioner error is wrapped as in the Go
`fmt.Errorf` call. -/
def provisionDatabaseStep (o : Oracle) (app : Application) : ProvResult :=
  if app.needsDatabase then
    if app.isLocalDatabase then
      let r := provisionLocalPostgreSQL o app
      match r.err with
      | some e => { r with err := some ("failed to provision local PostgreSQL: " ++ e) }
      | none => r
    else { err := none, status := provisionAWSPostgreSQL app, effects := [] }
  else { err := none, status := app.status, effects := [] }

/-- The cache block of `provisionInfrastructure`. -/
def provisionCacheStep (o : Oracle) (app : Application) : ProvResult :=
  if app.needsCache then
    if app.isLocalRedis then
      let r := provisionLocalRedis o app
      match r.err with
      | some e => { r with err := some ("failed to provision local Redis: " ++ e) }
      | none => r
    else { err := none, status := provisionAWSRedis app, effects := [] }
  else { err := none, status := app.status, effects := [] }

/-- The storage block of `provisionInfrastructure`. -/
def provisionStorageStep (o : Oracle) (app : Application) : ProvResult :=
  if app.needsStorage then
    if app.isLocalS3 then
      let r := provisionLocalS3 o app
      match r.err with
      | some e => { r with err := some ("failed to provision local S3 (MinIO): " ++ e) }
      | none => r
    else { err := none, status := provisionAWSS3 o.nowUnix app, effects := [] }
  else { err := none, status := app.status, effects := [] }

/-- The sequential plumbing of `provisionInfrastructure`: run the database
block, on success the cache block on the updated status, on success the
storage block, then set `InfrastructureReady = true` and perform the
provisioner's own status write (`updInfra` = its outcome). -/
def provisionInfraAux (updInfra : Bool) (rDb : ProvResult)
    (stepCache stepStorage : ApplicationStatus → ProvResult) : ProvResult :=
  match rDb.err with
  | some e => { err := some e, status := rDb.status, effects := rDb.effects }
  | none =>
    let rCache := stepCache rDb.status
    match rCache.err with
    | some e =>
      { err := some e, status := rCache.status, effects := rDb.effects ++ rCache.effects }
    | none =>
      let rS3 := stepStorage rCache.status
      match rS3.err with
      | some e =>
        { err := some e, status := rS3.status,
          effects := rDb.effects ++ rCache.effects ++ rS3.effects }
      | none =>
        let readyStatus := { rS3.status with infrastructureReady := true }
        let allEffects := rDb.effects ++ rCache.effects ++ rS3.effects ++ [Effect.statusUpdate]
        if updInfra then
          { err := none, status := readyStatus, effects := allEffects }
        else
          { err := some "failed to update infrastructure status", status := readyStatus,
            effects := allEffects }

/-- `provisionInfrastructure`: runs the three per-kind blocks in order,
threading the in-memory status, then sets `InfrastructureReady = true` in
memory and writes the status subresource itself (`r.Status().Update`,
resolved by `Oracle.updInfra`). -/
def provisionInfrastructure (o : Oracle) (app : Application) : ProvResult :=
  provisionInfraAux o.updInfra (provisionDatabaseStep o app)
    (fun st => provisionCacheStep o { app with status := st })
    (fun st => provisionStorageStep o { app with status := st })

/-- `buildEnvironmentVariables`: user-declared variables first, then
infrastructure connection variables derived from the observed endpoints,
with credential material depending on placement. -/
def buildEnvironmentVariables (app : Application) : List (String × String) :=
  let dbVars :=
    if app.status.databaseEndpoint ≠ "" then
      let dbName :=
        match app.spec.infrastructure.postgresql with
        | some pg => if pg.databaseName ≠ "" then pg.databaseName else "webapp"
        | none => "webapp"
      if app.status.databaseEnvironment = environmentLocal then
        [("DATABASE_URL",
          "postgres://appuser:localpassword@" ++ app.status.databaseEndpoint ++ "/" ++ dbName)]
      else
        [("DATABASE_URL",
          "postgres://user:password@" ++ app.status.databaseEndpoint ++ "/" ++ dbName)]
    else []
  let redisVars :=
    if app.status.redisEndpoint ≠ "" then
      [("REDIS_URL", "redis://" ++ app.status.redisEndpoint)]
    else []
  let s3Vars :=
    if app.status.s3BucketName ≠ "" then
      ("S3_BUCKET", app.status.s3BucketName) ::
        (if app.status.s3Environment = environmentLocal then
          [("S3_ENDPOINT", "http://" ++ app.status.s3Endpoint),
           ("S3_ACCESS_KEY", "minioadmin"), ("S3_SECRET_KEY", "minioadmin")]
        else [])
    else []
  app.spec.env ++ dbVars ++ redisVars ++ s3Vars

/-- The Deployment object synthesized by `createOrUpdateDeployment`
(name, replica count, image, container port, environment variables). -/
structure DeploymentObj where
  name : String
  replicas : Int
  image : String
  containerPort : Int
  env : List (String × String)
deriving Repr, DecidableEq

/-- The Deployment literal built inside `createOrUpdateDeployment`. -/
def buildDeployment (app : Application) : DeploymentObj :=
  { name := app.name, replicas := app.getReplicas, image := app.spec.image,
    containerPort := app.getPort, env := buildEnvironmentVariables app }

/-- The Service object synthesized by `createOrUpdateService`: external port
80 mapped to the resolved container port. -/
structure ServiceObj where
  name : String
  port : Int
  targetPort : Int
deriving Repr, DecidableEq

/-- The Service literal built inside `createOrUpdateService`. -/
def buildService (app : Application) : ServiceObj :=
  { name := app.name, port := 80, targetPort := app.getPort }

/-- `createOrUpdateDeployment`: one `Create` call; already-exists is treated
as success (no update-in-place). -/
def createOrUpdateDeployment (o : Oracle) (app : Application) : Option String × List Effect :=
  if o.deploymentCreate = .err then
    (some "failed to create deployment", [.createObj (buildDeployment app).name])
  else (none, [.createObj (buildDeployment app).name])

/-- `createOrUpdateService`: one `Create` call; already-exists is success. -/
def createOrUpdateService (o : Oracle) (app : Application) : Option String × List Effect :=
  if o.serviceCreate = .err then
    (some "failed to create service", [.createObj (buildService app).name])
  else (none, [.createObj (buildService app).name])

/-- `checkApplicationReady`: reads the Deployment (`none` = the read
failed); on success copies the reported ready-replica count into the
in-memory status and reports readiness iff it equals `GetReplicas()`. -/
def checkApplicationReady (o : Oracle) (app : Application) :
    Option (Bool × ApplicationStatus) :=
  match o.deploymentReadyReplicas with
  | none => none
  | some n =>
    if n = app.getReplicas then some (true, { app.status with readyReplicas := n })
    else some (false, { app.status with readyReplicas := n })

/-- Result of one reconciliation pass over one record: the record as held in
the external store after the pass, the controller's in-memory copy at return
time, the requested requeue delay in seconds (`none` = no requeue), and the
error returned to the trigger mechanism (`none` = nil). -/
structure Outcome where
  stored : Application
  mem : Application
  requeueAfterSeconds : Option Int
  err : Option String
deriving Repr, DecidableEq

/-- `reconcileApplication`: the phase-dispatch state machine.  `app` is the
record as fetched from the store at the start of the pass; every
`Status().Update` that succeeds replaces the stored copy with the in-memory
one. -/
def reconcileApplication (o : Oracle) (app : Application) : Outcome :=
  if app.status.phase = "" ∨ app.status.phase = phasePending then
    let mem1 := app.updateStatus phaseProvisioningInfra
      "Analyzing environment and provisioning infrastructure"
    if o.updPhase then
      let pr := provisionInfrastructure o mem1
      match pr.err with
      | some e =>
        let mem2 := ({ mem1 with status := pr.status }).updateStatus phaseFailed
          ("Infrastructure failed: " ++ e)
        { stored := if o.updFail then mem2 else mem1, mem := mem2,
          requeueAfterSeconds := some 300, err := none }
      | none =>
        let mem2 : Application := { mem1 with status := pr.status }
        { stored := mem2, mem := mem2, requeueAfterSeconds := some 10, err := none }
    else
      { stored := app, mem := mem1, requeueAfterSeconds := none,
        err := some "failed to update Application status" }
  else if app.status.phase = phaseProvisioningInfra ∧ app.status.infrastructureReady then
    let mem1 := app.updateStatus phaseDeploying "Creating Kubernetes resources"
    if o.updPhase then
      match (createOrUpdateDeployment o mem1).1 with
      | some e =>
        let mem2 := mem1.updateStatus phaseFailed ("Deployment failed: " ++ e)
        { stored := if o.updFail then mem2 else mem1, mem := mem2,
          requeueAfterSeconds := some 120, err := none }
      | none =>
        match (createOrUpdateService o mem1).1 with
        | some e =>
          let mem2 := mem1.updateStatus phaseFailed ("Service failed: " ++ e)
          { stored := if o.updFail then mem2 else mem1, mem := mem2,
            requeueAfterSeconds := some 120, err := none }
        | none =>
          { stored := mem1, mem := mem1, requeueAfterSeconds := some 15, err := none }
    else
      { stored := app, mem := mem1, requeueAfterSeconds := none,
        err := some "failed to update Application status" }
  else if app.status.phase = phaseDeploying then
    match checkApplicationReady o app with
    | none =>
      { stored := app, mem := app, requeueAfterSeconds := some 30, err := none }
    | some (ready, st) =>
      let mem1 : Application := { app with status := st }
      if ready then
        let mem2 := mem1.updateStatus phaseReady "All replicas ready and serving traffic"
        if o.updReady then
          { stored := mem2, mem := mem2, requeueAfterSeconds := none, err := none }
        else
          { stored := app, mem := mem2, requeueAfterSeconds := none,
            err := some "failed to update Application status" }
      else
        { stored := app, mem := mem1, requeueAfterSeconds := some 15, err := none }
  else if app.status.phase = phaseReady then
    { stored := app, mem := app, requeueAfterSeconds := some 300, err := none }
  else
    { stored := app, mem := app, requeueAfterSeconds := some 60, err := none }

/-- Outcome of the initial `r.Get` of the pass. -/
inductive GetResult
  | notFound
  | getErr (msg : String)
  | found (app : Application)
deriving Repr, DecidableEq

/-- Result of the top-level `Reconcile` as seen by the trigger mechanism,
plus the store content afterwards (`none` when the record is absent). -/
structure ReconcileRes where
  stored : Option Application
  requeueAfterSeconds : Option Int
  err : Option String
deriving Repr, DecidableEq

/-- The store content of a pass result, defaulting to the empty record. -/
def ReconcileRes.storedApp (r : ReconcileRes) : Application :=
  r.stored.getD {}

/-- `ApplicationController.Reconcile`: fetch, validate, dispatch. -/
def Reconcile (o : Oracle) (g : GetResult) : ReconcileRes :=
  match g with
  | .notFound => { stored := none, requeueAfterSeconds := none, err := none }
  | .getErr msg => { stored := none, requeueAfterSeconds := none, err := some msg }
  | .found app =>
    match app.validateSpec with
    | some vmsg =>
      let mem1 := app.updateStatus phaseFailed ("Validation failed: " ++ vmsg)
      if o.updValid then
        { stored := some mem1, requeueAfterSeconds := none, err := none }
      else
        { stored := some app, requeueAfterSeconds := none,
          err := some "failed to update Application status" }
    | none =>
      let oc := reconcileApplication o app
      { stored := some oc.stored, requeueAfterSeconds := oc.requeueAfterSeconds,
        err := oc.err }

/-- The stored record after one full pass on a present record. -/
def reconcileStep (o : Oracle) (app : Application) : Application :=
  (Reconcile o (.found app)).storedApp

/-- The stored records over a sequence of passes (head = initial record; no
external edits between passes). -/
def reconcileTrace (os : List Oracle) (app : Application) : List Application :=
  match os with
  | [] => [app]
  | o :: rest => app :: reconcileTrace rest (reconcileStep o app)

/-- Rank of a phase along the forward order of the state machine; `Failed`
(and any unrecognized phase) is maximal. -/
def phaseRank (p : String) : Nat :=
  if p = "" ∨ p = phasePending then 0
  else if p = phaseProvisioningInfra then 1
  else if p = phaseDeploying then 2
  else if p = phaseReady then 3
  else 4

/-- The phase strings the controller itself produces. -/
def validPhase (p : String) : Bool :=
  p = "" ∨ p = phasePending ∨ p = phaseProvisioningInfra ∨ p = phaseDeploying ∨
    p = phaseReady ∨ p = phaseFailed

/-- Placement resolved by the code for the database of a record. -/
def databasePlacement (app : Application) : String :=
  if app.isLocalDatabase then "local" else "cloud"

/-- Placement resolved by the code for the cache of a record. -/
def redisPlacement (app : Application) : String :=
  if app.isLocalRedis then "local" else "cloud"

/-- Placement resolved by the code for the object store of a record. -/
def s3Placement (app : Application) : String :=
  if app.isLocalS3 then "local" else "cloud"

/-- The three-tier precedence rule exactly as claim C1 states it (spec §4.2):
a resource-level setting is skipped when it is `auto`, an application-level
setting is skipped when it is `auto`, otherwise the ambient environment
decides.  Kept separate from the code's resolution so the two can be
compared. -/
def resolvePlacementSpec (resourceEnv appEnv : String) (ambientIsLocal : Bool) : String :=
  if resourceEnv ≠ "" ∧ resourceEnv ≠ "auto" then
    if resourceEnv = "local" then "local" else "cloud"
  else if appEnv ≠ "" ∧ appEnv ≠ "auto" then
    if appEnv = "local" then "local" else "cloud"
  else if ambientIsLocal then "local" else "cloud"

/-- The precedence rule the code actually implements: a resource-level
setting wins whenever it is non-empty, *including* when it is `auto` (in
which case the application-level setting is ignored and the ambient check
decides); the ambient check `Application.isLocalEnvironment` is hardcoded to
report local. -/
def resolvePlacementAmended (resourceEnv appEnv : String) : String :=
  let env :=
    if resourceEnv ≠ "" then resourceEnv
    else if appEnv ≠ "" then appEnv
    else "auto"
  if env = "local" ∨ env = "auto" then "local" else "cloud"

/-! ## Helper lemmas -/

@[simp] theorem updateStatus_spec (app : Application) (p m : String) :
    (app.updateStatus p m).spec = app.spec := rfl

@[simp] theorem updateStatus_name (app : Application) (p m : String) :
    (app.updateStatus p m).name = app.name := rfl

@[simp] theorem updateStatus_phase (app : Application) (p m : String) :
    (app.updateStatus p m).status.phase = p := rfl

@[simp] theorem updateStatus_message (app : Application) (p m : String) :
    (app.updateStatus p m).status.message = m := rfl

@[simp] theorem updateStatus_readyReplicas (app : Application) (p m : String) :
    (app.updateStatus p m).status.readyReplicas = app.status.readyReplicas := rfl

@[simp] theorem updateStatus_infrastructureReady (app : Application) (p m : String) :
    (app.updateStatus p m).status.infrastructureReady = app.status.infrastructureReady := rfl

theorem phaseRank_le_four (p : String) : phaseRank p ≤ 4 := by
  unfold phaseRank
  repeat' split
  all_goals omega

theorem append_ne_empty (s t : String) (h : t.length ≠ 0) : s ++ t ≠ "" := by
  intro hEq
  have hlen := congrArg String.length hEq
  rw [String.length_append] at hlen
  have : ("" : String).length = 0 := rfl
  omega

theorem append_ne_empty_left (s t : String) (h : s.length ≠ 0) : s ++ t ≠ "" := by
  intro hEq
  have hlen := congrArg String.length hEq
  rw [String.length_append] at hlen
  have : ("" : String).length = 0 := rfl
  omega

@[simp] theorem setStatus_spec (app : Application) (s : ApplicationStatus) :
    ({ app with status := s } : Application).spec = app.spec := rfl

@[simp] theorem setStatus_name (app : Application) (s : ApplicationStatus) :
    ({ app with status := s } : Application).name = app.name := rfl

@[simp] theorem setStatus_needsDatabase (app : Application) (s : ApplicationStatus) :
    ({ app with status := s } : Application).needsDatabase = app.needsDatabase := rfl

@[simp] theorem setStatus_needsCache (app : Application) (s : ApplicationStatus) :
    ({ app with status := s } : Application).needsCache = app.needsCache := rfl

@[simp] theorem setStatus_needsStorage (app : Application) (s : ApplicationStatus) :
    ({ app with status := s } : Application).needsStorage = app.needsStorage := rfl

@[simp] theorem setStatus_isLocalDatabase (app : Application) (s : ApplicationStatus) :
    ({ app with status := s } : Application).isLocalDatabase = app.isLocalDatabase := rfl

@[simp] theorem setStatus_isLocalRedis (app : Application) (s : ApplicationStatus) :
    ({ app with status := s } : Application).isLocalRedis = app.isLocalRedis := rfl

@[simp] theorem setStatus_isLocalS3 (app : Application) (s : ApplicationStatus) :
    ({ app with status := s } : Application).isLocalS3 = app.isLocalS3 := rfl

@[simp] theorem setStatus_s3SpecBucket (app : Application) (s : ApplicationStatus) :
    ({ app with status := s } : Application).s3SpecBucket = app.s3SpecBucket := rfl

@[simp] theorem setStatus_getReplicas (app : Application) (s : ApplicationStatus) :
    ({ app with status := s } : Application).getReplicas = app.getReplicas := rfl

@[simp] theorem updateStatus_needsDatabase (app : Application) (p m : String) :
    (app.updateStatus p m).needsDatabase = app.needsDatabase := rfl

@[simp] theorem updateStatus_needsCache (app : Application) (p m : String) :
    (app.updateStatus p m).needsCache = app.needsCache := rfl

@[simp] theorem updateStatus_needsStorage (app : Application) (p m : String) :
    (app.updateStatus p m).needsStorage = app.needsStorage := rfl

@[simp] theorem updateStatus_isLocalDatabase (app : Application) (p m : String) :
    (app.updateStatus p m).isLocalDatabase = app.isLocalDatabase := rfl

@[simp] theorem updateStatus_isLocalRedis (app : Application) (p m : String) :
    (app.updateStatus p m).isLocalRedis = app.isLocalRedis := rfl

@[simp] theorem updateStatus_isLocalS3 (app : Application) (p m : String) :
    (app.updateStatus p m).isLocalS3 = app.isLocalS3 := rfl

@[simp] theorem updateStatus_validateSpec (app : Application) (p m : String) :
    (app.updateStatus p m).validateSpec = app.validateSpec := rfl

/-! ## Claim C1: environment-resolution precedence -/

/-- A record whose database spec pins the resource-level environment to
`auto` while the application-wide environment is `aws`. -/
def autoOverAwsApp : Application :=
  { name := "d",
    spec := { image := "i",
              infrastructure := { environment := "aws",
                                  postgresql := some { environment := "auto" } } } }

/-- C1 counterexample: with resource-level = `auto` and app-level = `aws`
(cloud), the claimed precedence resolves to cloud (for either ambient
environment), but the code resolves the placement to local, because
`GetDatabaseEnvironment` short-circuits on any non-empty resource-level
value, `auto` included, and the ambient check is hardcoded local. -/
theorem C1_resolution_cex :
    databasePlacement autoOverAwsApp = "local" ∧
    resolvePlacementSpec autoOverAwsApp.pgEnv
      autoOverAwsApp.spec.infrastructure.environment true = "cloud" ∧
    resolvePlacementSpec autoOverAwsApp.pgEnv
      autoOverAwsApp.spec.infrastructure.environment false = "cloud" := by
  decide

/-- C1 (amended): for every record and each infrastructure kind, the resolved
placement follows the rule `resolvePlacementAmended`: the resource-level
environment is used whenever it is set (even when set to `auto`), else the
application-wide environment whenever set, else `auto`; the result is local
exactly when that resolved value is `local` or `auto` (the ambient check is
hardcoded to local).  The claim's concrete cases that survive: resource=`aws`
over app=`local` resolves to cloud; resource unset with app=`local` resolves
to local; both unset resolves to local. -/
theorem C1_resolution (app : Application) :
    databasePlacement app =
      resolvePlacementAmended app.pgEnv app.spec.infrastructure.environment ∧
    redisPlacement app =
      resolvePlacementAmended app.redisEnv app.spec.infrastructure.environment ∧
    s3Placement app =
      resolvePlacementAmended app.s3Env app.spec.infrastructure.environment ∧
    resolvePlacementAmended "aws" "local" = "cloud" ∧
    resolvePlacementAmended "" "local" = "local" ∧
    resolvePlacementAmended "" "" = "local" := by
  refine ⟨?_, ?_, ?_, by decide, by decide, by decide⟩
  · simp only [databasePlacement, Application.isLocalDatabase,
      Application.getDatabaseEnvironment, Application.isLocalEnvironment,
      resolvePlacementAmended, environmentLocal, environmentAuto,
      Bool.and_true, Bool.or_eq_true, beq_iff_eq]
  · simp only [redisPlacement, Application.isLocalRedis,
      Application.getRedisEnvironment, Application.isLocalEnvironment,
      resolvePlacementAmended, environmentLocal, environmentAuto,
      Bool.and_true, Bool.or_eq_true, beq_iff_eq]
  · simp only [s3Placement, Application.isLocalS3,
      Application.getS3Environment, Application.isLocalEnvironment,
      resolvePlacementAmended, environmentLocal, environmentAuto,
      Bool.and_true, Bool.or_eq_true, beq_iff_eq]

/-! ## Claim C6: spec validation -/

/-- C6: `ValidateSpec` accepts exactly the records with a non-empty image, a
port in 1..65535 when nonzero, and replicas ≥ 0; when validation fails and
the status write succeeds, the pass stores phase `Failed` with the message
`"Validation failed: <reason>"`, requests no requeue and returns no error;
for an empty image the stored message contains `"image"`. -/
theorem C6_validation (app : Application) (o : Oracle) (hupd : o.updValid = true) :
    (app.validateSpec = none ↔
      (app.spec.image ≠ "" ∧
        (app.spec.port = 0 ∨ (1 ≤ app.spec.port ∧ app.spec.port ≤ 65535)) ∧
        0 ≤ app.spec.replicas)) ∧
    (∀ msg, app.validateSpec = some msg →
      (Reconcile o (.found app)).storedApp.status.phase = phaseFailed ∧
      (Reconcile o (.found app)).storedApp.status.message = "Validation failed: " ++ msg ∧
      (Reconcile o (.found app)).requeueAfterSeconds = none ∧
      (Reconcile o (.found app)).err = none) ∧
    (app.spec.image = "" →
      ∃ l r, (Reconcile o (.found app)).storedApp.status.message = l ++ "image" ++ r) := by
  refine ⟨?_, ?_, ?_⟩
  · unfold Application.validateSpec
    repeat' split
    all_goals simp_all
    all_goals omega
  · intro msg hmsg
    simp only [Reconcile, ReconcileRes.storedApp, hmsg]
    simp [hupd, Application.updateStatus]
  · intro himg
    have hmsg : app.validateSpec = some "image is required" := by
      unfold Application.validateSpec
      simp [himg]
    refine ⟨"Validation failed: ", " is required", ?_⟩
    simp only [Reconcile, ReconcileRes.storedApp, hmsg]
    simp [hupd, Application.updateStatus]

/-- C6 witness: the empty-image record fails validation, is stored as
`Failed` with a message containing `"image"`, and gets no requeue. -/
theorem C6_validation_witness :
    (Reconcile {} (.found { name := "x", spec := { image := "" } })).storedApp.status.phase =
      phaseFailed ∧
    (∃ l r, (Reconcile {} (.found { name := "x", spec := { image := "" } })).storedApp.status.message =
      l ++ "image" ++ r) ∧
    (Reconcile {} (.found { name := "x", spec := { image := "" } })).requeueAfterSeconds = none := by
  have h := C6_validation { name := "x", spec := { image := "" } } {} rfl
  have h2 := h.2.1 "image is required" (by decide)
  exact ⟨h2.1, h.2.2 rfl, h2.2.2.1⟩

/-! ## Claim C9: determinism of the cloud provisioners -/

/-- A record requesting a cloud-placed object store without pinning a bucket
name. -/
def cloudS3App : Application :=
  { name := "demo",
    spec := { image := "nginx",
              infrastructure := { s3 := some { environment := "aws" } } } }

/-- A record (with the given image) pinning the object-store bucket `b1`. -/
def pinnedBucketApp (img : String) : Application :=
  { name := "app",
    spec := { image := img,
              infrastructure := { s3 := some { bucketName := "b1" } } } }

/-- C9 counterexample: for a record that does not pin a bucket name, two
cloud object-store provisioning runs at different wall-clock instants
resolve different bucket names, so the result is not a function of the
record name and kind alone. -/
theorem C9_determinism_cex :
    (provisionAWSS3 0 cloudS3App).s3BucketName ≠
      (provisionAWSS3 1 cloudS3App).s3BucketName := by
  decide

/-- C9 (amended): the cloud database and cache provisioners are
deterministic — records with the same name receive identical endpoint
strings, whatever the rest of the spec and the wall clock; the cloud
object-store bucket name is deterministic only when the spec pins a bucket
name (when unset it embeds the provisioning timestamp). -/
theorem C9_determinism (a b : Application) (now now2 : Int) (hname : a.name = b.name) :
    (provisionAWSPostgreSQL a).databaseEndpoint = (provisionAWSPostgreSQL b).databaseEndpoint ∧
    (provisionAWSRedis a).redisEndpoint = (provisionAWSRedis b).redisEndpoint ∧
    (a.s3SpecBucket = b.s3SpecBucket → a.s3SpecBucket ≠ "" →
      (provisionAWSS3 now a).s3BucketName = (provisionAWSS3 now2 b).s3BucketName) := by
  refine ⟨by simp [provisionAWSPostgreSQL, hname], by simp [provisionAWSRedis, hname], ?_⟩
  intro hb hne
  simp [provisionAWSS3, hb, hne, hb ▸ hne]

/-- C9 witness: two records named `app` with the pinned bucket `b1`,
provisioned at instants 5 and 9, receive identical endpoints and buckets. -/
theorem C9_determinism_witness :
    (provisionAWSS3 5 (pinnedBucketApp "x")).s3BucketName =
      (provisionAWSS3 9 (pinnedBucketApp "y")).s3BucketName :=
  (C9_determinism (pinnedBucketApp "x") (pinnedBucketApp "y") 5 9 rfl).2.2 rfl (by decide)

/-! ## Claim C10: resolved replica count and port defaults -/

/-- C10: the synthesized Deployment requests `GetReplicas()` replicas on
container port `GetPort()`; `GetReplicas()` is 1 whenever the declared
replicas value is ≤ 0 (an explicit 0 included) and `GetPort()` is 8080
whenever the declared port is ≤ 0; the readiness check compares the reported
count against the same `GetReplicas()` and copies the report into the
in-memory status. -/
theorem C10_resolved_defaults (app : Application) (o : Oracle) :
    (app.spec.replicas ≤ 0 → app.getReplicas = 1) ∧
    (app.spec.port ≤ 0 → app.getPort = 8080) ∧
    (buildDeployment app).replicas = app.getReplicas ∧
    (buildDeployment app).containerPort = app.getPort ∧
    (app.spec.replicas = 0 → (buildDeployment app).replicas = 1) ∧
    (∀ n b st, o.deploymentReadyReplicas = some n →
      checkApplicationReady o app = some (b, st) →
      ((b = true ↔ n = app.getReplicas) ∧ st.readyReplicas = n)) := by
  refine ⟨?_, ?_, rfl, rfl, ?_, ?_⟩
  · intro h; simp [Application.getReplicas, h]
  · intro h; simp [Application.getPort, h]
  · intro h; simp [buildDeployment, Application.getReplicas, h]
  · intro n b st hn hc
    unfold checkApplicationReady at hc
    rw [hn] at hc
    by_cases he : n = app.getReplicas <;> simp [he] at hc <;>
      simp [← hc.1, ← hc.2, he]

/-- C10 witness: a record declaring 0 replicas and port 0 is synthesized
with 1 replica on port 8080, and a report of 1 ready replica counts as
ready. -/
theorem C10_resolved_defaults_witness :
    (buildDeployment { name := "w", spec := { image := "img" } }).replicas = 1 ∧
    (buildDeployment { name := "w", spec := { image := "img" } }).containerPort = 8080 ∧
    ((true = true) ↔ (1 : Int) = Application.getReplicas { name := "w", spec := { image := "img" } }) := by
  have h := C10_resolved_defaults { name := "w", spec := { image := "img" } }
    { deploymentReadyReplicas := some 1 }
  refine ⟨h.2.2.2.2.1 rfl, by rw [h.2.2.2.1]; exact h.2.1 (by decide), ?_⟩
  exact (h.2.2.2.2.2 1 true { readyReplicas := 1 } rfl (by decide)).1

/-! ## Claim C7: provisioning side effects -/

theorem provisionLocalPostgreSQL_noStatusWrite (o : Oracle) (app : Application) :
    Effect.statusUpdate ∉ (provisionLocalPostgreSQL o app).effects := by
  unfold provisionLocalPostgreSQL
  repeat' split
  all_goals simp

theorem provisionLocalRedis_noStatusWrite (o : Oracle) (app : Application) :
    Effect.statusUpdate ∉ (provisionLocalRedis o app).effects := by
  unfold provisionLocalRedis
  repeat' split
  all_goals simp

theorem provisionLocalS3_noStatusWrite (o : Oracle) (app : Application) :
    Effect.statusUpdate ∉ (provisionLocalS3 o app).effects := by
  unfold provisionLocalS3
  repeat' split
  all_goals simp

theorem provisionLocalPostgreSQL_count (o : Oracle) (app : Application) :
    (provisionLocalPostgreSQL o app).effects.count Effect.statusUpdate = 0 :=
  List.count_eq_zero.mpr (provisionLocalPostgreSQL_noStatusWrite o app)

theorem provisionLocalRedis_count (o : Oracle) (app : Application) :
    (provisionLocalRedis o app).effects.count Effect.statusUpdate = 0 :=
  List.count_eq_zero.mpr (provisionLocalRedis_noStatusWrite o app)

theorem provisionLocalS3_count (o : Oracle) (app : Application) :
    (provisionLocalS3 o app).effects.count Effect.statusUpdate = 0 :=
  List.count_eq_zero.mpr (provisionLocalS3_noStatusWrite o app)

theorem provisionDatabaseStep_count (o : Oracle) (app : Application) :
    (provisionDatabaseStep o app).effects.count Effect.statusUpdate = 0 := by
  unfold provisionDatabaseStep
  split
  · split
    · cases h : (provisionLocalPostgreSQL o app).err <;>
        simp [h, provisionLocalPostgreSQL_count]
    · simp
  · simp

theorem provisionCacheStep_count (o : Oracle) (app : Application) :
    (provisionCacheStep o app).effects.count Effect.statusUpdate = 0 := by
  unfold provisionCacheStep
  split
  · split
    · cases h : (provisionLocalRedis o app).err <;>
        simp [h, provisionLocalRedis_count]
    · simp
  · simp

theorem provisionStorageStep_count (o : Oracle) (app : Application) :
    (provisionStorageStep o app).effects.count Effect.statusUpdate = 0 := by
  unfold provisionStorageStep
  split
  · split
    · cases h : (provisionLocalS3 o app).err <;>
        simp [h, provisionLocalS3_count]
    · simp
  · simp

theorem provisionInfraAux_count (u : Bool) (rDb : ProvResult)
    (fc fs : ApplicationStatus → ProvResult)
    (hdb : rDb.effects.count Effect.statusUpdate = 0)
    (hc : ∀ st, (fc st).effects.count Effect.statusUpdate = 0)
    (hs : ∀ st, (fs st).effects.count Effect.statusUpdate = 0) :
    (provisionInfraAux u rDb fc fs).effects.count Effect.statusUpdate ≤ 1 := by
  unfold provisionInfraAux
  cases h1 : rDb.err with
  | some e => simp [hdb]
  | none =>
    cases h2 : (fc rDb.status).err with
    | some e => simp [h2, List.count_append, hdb, hc]
    | none =>
      cases h3 : (fs (fc rDb.status).status).err with
      | some e => simp [h2, h3, List.count_append, hdb, hc, hs]
      | none =>
        simp only [h2, h3]
        split <;> simp [List.count_append, hdb, hc, hs]

theorem provisionInfrastructure_statusWriteCount (o : Oracle) (app : Application) :
    (provisionInfrastructure o app).effects.count Effect.statusUpdate ≤ 1 :=
  provisionInfraAux_count o.updInfra (provisionDatabaseStep o app) _ _
    (provisionDatabaseStep_count o app)
    (fun st => provisionCacheStep_count o { app with status := st })
    (fun st => provisionStorageStep_count o { app with status := st })

/-- C7 (amended): each per-kind provisioning call records its endpoint and
placement in the in-memory record and performs no status write; the
aggregate `provisionInfrastructure`, however, performs (at most) one status
write of its own at the end — so not all status writes happen in the
engine's dispatch logic. -/
theorem C7_provisioner_persistence (o : Oracle) (app : Application) :
    Effect.statusUpdate ∉ (provisionLocalPostgreSQL o app).effects ∧
    Effect.statusUpdate ∉ (provisionLocalRedis o app).effects ∧
    Effect.statusUpdate ∉ (provisionLocalS3 o app).effects ∧
    ((provisionLocalPostgreSQL o app).err = none →
      (provisionLocalPostgreSQL o app).status.databaseEndpoint = app.name ++ "-postgres:5432" ∧
      (provisionLocalPostgreSQL o app).status.databaseEnvironment = environmentLocal) ∧
    ((provisionLocalRedis o app).err = none →
      (provisionLocalRedis o app).status.redisEndpoint = app.name ++ "-redis:6379" ∧
      (provisionLocalRedis o app).status.redisEnvironment = environmentLocal) ∧
    ((provisionLocalS3 o app).err = none →
      (provisionLocalS3 o app).status.s3Endpoint = app.name ++ "-s3:9000" ∧
      (provisionLocalS3 o app).status.s3Environment = environmentLocal) ∧
    (provisionAWSPostgreSQL app).databaseEnvironment = environmentAWS ∧
    (provisionAWSRedis app).redisEnvironment = environmentAWS ∧
    (provisionInfrastructure o app).effects.count Effect.statusUpdate ≤ 1 := by
  refine ⟨provisionLocalPostgreSQL_noStatusWrite o app, provisionLocalRedis_noStatusWrite o app,
    provisionLocalS3_noStatusWrite o app, ?_, ?_, ?_, rfl, rfl,
    provisionInfrastructure_statusWriteCount o app⟩
  · unfold provisionLocalPostgreSQL
    repeat' split
    all_goals simp
  · unfold provisionLocalRedis
    repeat' split
    all_goals simp
  · unfold provisionLocalS3
    repeat' split
    all_goals simp

/-- C7 witness: on a record needing only a local cache, the cache
provisioner succeeds without any status write and records the endpoint. -/
theorem C7_provisioner_persistence_witness :
    Effect.statusUpdate ∉
      (provisionLocalRedis {} { name := "w", spec := { image := "img" } }).effects ∧
    (provisionLocalRedis {} { name := "w", spec := { image := "img" } }).status.redisEndpoint =
      "w-redis:6379" := by
  have h := C7_provisioner_persistence {} { name := "w", spec := { image := "img" } }
  refine ⟨h.2.1, ?_⟩
  rw [(h.2.2.2.2.1 rfl).1]
  decide

/-- C7 counterexample: the Infrastructure Provisioner itself writes the
status subresource (the `r.Status().Update` at the end of
`provisionInfrastructure`), so status persistence is not performed only by
the Reconciliation Engine's dispatch logic. -/
theorem C7_provisioner_persistence_cex :
    Effect.statusUpdate ∈ (provisionInfrastructure {} cloudS3App).effects := by
  decide

/-! ## Claim C2: infrastructureReady vs recorded endpoints -/

theorem provisionLocalPostgreSQL_ok (o : Oracle) (app : Application)
    (h : (provisionLocalPostgreSQL o app).err = none) :
    (provisionLocalPostgreSQL o app).status.databaseEndpoint =
      app.name ++ "-postgres:5432" ∧
    (provisionLocalPostgreSQL o app).status.databaseEnvironment = environmentLocal := by
  unfold provisionLocalPostgreSQL at h ⊢
  repeat' split at h
  all_goals simp_all

theorem provisionLocalRedis_ok (o : Oracle) (app : Application)
    (h : (provisionLocalRedis o app).err = none) :
    (provisionLocalRedis o app).status.redisEndpoint = app.name ++ "-redis:6379" ∧
    (provisionLocalRedis o app).status.redisEnvironment = environmentLocal := by
  unfold provisionLocalRedis at h ⊢
  repeat' split at h
  all_goals simp_all

theorem provisionLocalS3_ok (o : Oracle) (app : Application)
    (h : (provisionLocalS3 o app).err = none) :
    (provisionLocalS3 o app).status.s3Endpoint = app.name ++ "-s3:9000" ∧
    (provisionLocalS3 o app).status.s3Environment = environmentLocal ∧
    (provisionLocalS3 o app).status.s3BucketName =
      (if app.s3SpecBucket ≠ "" then app.s3SpecBucket else "default-bucket") := by
  unfold provisionLocalS3 at h ⊢
  repeat' split at h
  all_goals simp_all

theorem provisionLocalPostgreSQL_frame (o : Oracle) (app : Application) :
    (provisionLocalPostgreSQL o app).status.phase = app.status.phase ∧
    (provisionLocalPostgreSQL o app).status.message = app.status.message ∧
    (provisionLocalPostgreSQL o app).status.readyReplicas = app.status.readyReplicas ∧
    (provisionLocalPostgreSQL o app).status.infrastructureReady =
      app.status.infrastructureReady ∧
    (provisionLocalPostgreSQL o app).status.redisEndpoint = app.status.redisEndpoint ∧
    (provisionLocalPostgreSQL o app).status.redisEnvironment = app.status.redisEnvironment ∧
    (provisionLocalPostgreSQL o app).status.s3BucketName = app.status.s3BucketName ∧
    (provisionLocalPostgreSQL o app).status.s3Endpoint = app.status.s3Endpoint ∧
    (provisionLocalPostgreSQL o app).status.s3Environment = app.status.s3Environment := by
  unfold provisionLocalPostgreSQL
  repeat' split
  all_goals simp

theorem provisionLocalRedis_frame (o : Oracle) (app : Application) :
    (provisionLocalRedis o app).status.phase = app.status.phase ∧
    (provisionLocalRedis o app).status.message = app.status.message ∧
    (provisionLocalRedis o app).status.readyReplicas = app.status.readyReplicas ∧
    (provisionLocalRedis o app).status.infrastructureReady = app.status.infrastructureReady ∧
    (provisionLocalRedis o app).status.databaseEndpoint = app.status.databaseEndpoint ∧
    (provisionLocalRedis o app).status.databaseEnvironment = app.status.databaseEnvironment ∧
    (provisionLocalRedis o app).status.s3BucketName = app.status.s3BucketName ∧
    (provisionLocalRedis o app).status.s3Endpoint = app.status.s3Endpoint ∧
    (provisionLocalRedis o app).status.s3Environment = app.status.s3Environment := by
  unfold provisionLocalRedis
  repeat' split
  all_goals simp

theorem provisionLocalS3_frame (o : Oracle) (app : Application) :
    (provisionLocalS3 o app).status.phase = app.status.phase ∧
    (provisionLocalS3 o app).status.message = app.status.message ∧
    (provisionLocalS3 o app).status.readyReplicas = app.status.readyReplicas ∧
    (provisionLocalS3 o app).status.infrastructureReady = app.status.infrastructureReady ∧
    (provisionLocalS3 o app).status.databaseEndpoint = app.status.databaseEndpoint ∧
    (provisionLocalS3 o app).status.databaseEnvironment = app.status.databaseEnvironment ∧
    (provisionLocalS3 o app).status.redisEndpoint = app.status.redisEndpoint ∧
    (provisionLocalS3 o app).status.redisEnvironment = app.status.redisEnvironment := by
  unfold provisionLocalS3
  repeat' split
  all_goals simp

theorem provisionDatabaseStep_frame (o : Oracle) (app : Application) :
    (provisionDatabaseStep o app).status.phase = app.status.phase ∧
    (provisionDatabaseStep o app).status.message = app.status.message ∧
    (provisionDatabaseStep o app).status.readyReplicas = app.status.readyReplicas ∧
    (provisionDatabaseStep o app).status.infrastructureReady =
      app.status.infrastructureReady ∧
    (provisionDatabaseStep o app).status.redisEndpoint = app.status.redisEndpoint ∧
    (provisionDatabaseStep o app).status.redisEnvironment = app.status.redisEnvironment ∧
    (provisionDatabaseStep o app).status.s3BucketName = app.status.s3BucketName ∧
    (provisionDatabaseStep o app).status.s3Endpoint = app.status.s3Endpoint ∧
    (provisionDatabaseStep o app).status.s3Environment = app.status.s3Environment := by
  have hpg := provisionLocalPostgreSQL_frame o app
  unfold provisionDatabaseStep
  split
  · split
    · cases h : (provisionLocalPostgreSQL o app).err <;> simp [h, hpg]
    · simp [provisionAWSPostgreSQL]
  · simp

theorem provisionCacheStep_frame (o : Oracle) (app : Application) :
    (provisionCacheStep o app).status.phase = app.status.phase ∧
    (provisionCacheStep o app).status.message = app.status.message ∧
    (provisionCacheStep o app).status.readyReplicas = app.status.readyReplicas ∧
    (provisionCacheStep o app).status.infrastructureReady = app.status.infrastructureReady ∧
    (provisionCacheStep o app).status.databaseEndpoint = app.status.databaseEndpoint ∧
    (provisionCacheStep o app).status.databaseEnvironment = app.status.databaseEnvironment ∧
    (provisionCacheStep o app).status.s3BucketName = app.status.s3BucketName ∧
    (provisionCacheStep o app).status.s3Endpoint = app.status.s3Endpoint ∧
    (provisionCacheStep o app).status.s3Environment = app.status.s3Environment := by
  have hr := provisionLocalRedis_frame o app
  unfold provisionCacheStep
  split
  · split
    · cases h : (provisionLocalRedis o app).err <;> simp [h, hr]
    · simp [provisionAWSRedis]
  · simp

theorem provisionStorageStep_frame (o : Oracle) (app : Application) :
    (provisionStorageStep o app).status.phase = app.status.phase ∧
    (provisionStorageStep o app).status.message = app.status.message ∧
    (provisionStorageStep o app).status.readyReplicas = app.status.readyReplicas ∧
    (provisionStorageStep o app).status.infrastructureReady =
      app.status.infrastructureReady ∧
    (provisionStorageStep o app).status.databaseEndpoint = app.status.databaseEndpoint ∧
    (provisionStorageStep o app).status.databaseEnvironment = app.status.databaseEnvironment ∧
    (provisionStorageStep o app).status.redisEndpoint = app.status.redisEndpoint ∧
    (provisionStorageStep o app).status.redisEnvironment = app.status.redisEnvironment := by
  have hs := provisionLocalS3_frame o app
  unfold provisionStorageStep
  split
  · split
    · cases h : (provisionLocalS3 o app).err <;> simp [h, hs]
    · simp [provisionAWSS3]
  · simp


theorem provisionDatabaseStep_ok (o : Oracle) (app : Application)
    (h : (provisionDatabaseStep o app).err = none) (hneed : app.needsDatabase = true) :
    (provisionDatabaseStep o app).status.databaseEndpoint ≠ "" := by
  unfold provisionDatabaseStep at h ⊢
  rw [if_pos hneed] at h ⊢
  by_cases hl : app.isLocalDatabase = true
  · rw [if_pos hl] at h ⊢
    cases hpg : (provisionLocalPostgreSQL o app).err with
    | some e => simp [hpg] at h
    | none =>
      simp only [hpg] at h ⊢
      rw [(provisionLocalPostgreSQL_ok o app hpg).1]
      exact append_ne_empty _ "-postgres:5432" (by decide)
  · rw [if_neg hl]
    show app.name ++ "-db.cluster-xyz.us-west-2.rds.amazonaws.com" ≠ ""
    exact append_ne_empty _ "-db.cluster-xyz.us-west-2.rds.amazonaws.com" (by decide)

theorem provisionCacheStep_ok (o : Oracle) (app : Application)
    (h : (provisionCacheStep o app).err = none) (hneed : app.needsCache = true) :
    (provisionCacheStep o app).status.redisEndpoint ≠ "" := by
  unfold provisionCacheStep at h ⊢
  rw [if_pos hneed] at h ⊢
  by_cases hl : app.isLocalRedis = true
  · rw [if_pos hl] at h ⊢
    cases hr : (provisionLocalRedis o app).err with
    | some e => simp [hr] at h
    | none =>
      simp only [hr] at h ⊢
      rw [(provisionLocalRedis_ok o app hr).1]
      exact append_ne_empty _ "-redis:6379" (by decide)
  · rw [if_neg hl]
    show app.name ++ "-cache.xyz.cache.amazonaws.com" ≠ ""
    exact append_ne_empty _ "-cache.xyz.cache.amazonaws.com" (by decide)

theorem provisionStorageStep_ok (o : Oracle) (app : Application)
    (h : (provisionStorageStep o app).err = none) (hneed : app.needsStorage = true) :
    (app.isLocalS3 = true → (provisionStorageStep o app).status.s3Endpoint ≠ "") ∧
    (app.isLocalS3 = false → (provisionStorageStep o app).status.s3BucketName ≠ "") := by
  unfold provisionStorageStep at h ⊢
  rw [if_pos hneed] at h ⊢
  by_cases hl : app.isLocalS3 = true
  · rw [if_pos hl] at h ⊢
    cases hs : (provisionLocalS3 o app).err with
    | some e => simp [hs] at h
    | none =>
      refine ⟨fun _ => ?_, fun hcl => by simp [hl] at hcl⟩
      simp only [hs]
      rw [(provisionLocalS3_ok o app hs).1]
      exact append_ne_empty _ "-s3:9000" (by decide)
  · rw [if_neg hl] at h ⊢
    refine ⟨fun hloc => absurd hloc hl, fun _ => ?_⟩
    show (if app.s3SpecBucket ≠ "" then app.s3SpecBucket
          else app.name ++ "-storage-" ++ toString o.nowUnix) ≠ ""
    by_cases hb : app.s3SpecBucket = ""
    · rw [if_neg (not_not_intro hb)]
      refine append_ne_empty_left (app.name ++ "-storage-") _ ?_
      rw [String.length_append]
      have h9 : ("-storage-" : String).length = 9 := by decide
      omega
    · rw [if_pos hb]
      exact hb

theorem provisionInfraAux_cases (u : Bool) (rDb : ProvResult)
    (fc fs : ApplicationStatus → ProvResult) :
    (∃ e, rDb.err = some e ∧
      (provisionInfraAux u rDb fc fs).status = rDb.status ∧
      (provisionInfraAux u rDb fc fs).err = some e) ∨
    (rDb.err = none ∧ ∃ e, (fc rDb.status).err = some e ∧
      (provisionInfraAux u rDb fc fs).status = (fc rDb.status).status ∧
      (provisionInfraAux u rDb fc fs).err = some e) ∨
    (rDb.err = none ∧ (fc rDb.status).err = none ∧
      ∃ e, (fs (fc rDb.status).status).err = some e ∧
      (provisionInfraAux u rDb fc fs).status = (fs (fc rDb.status).status).status ∧
      (provisionInfraAux u rDb fc fs).err = some e) ∨
    (rDb.err = none ∧ (fc rDb.status).err = none ∧
      (fs (fc rDb.status).status).err = none ∧
      (provisionInfraAux u rDb fc fs).status =
        { (fs (fc rDb.status).status).status with infrastructureReady := true }) := by
  unfold provisionInfraAux
  cases h1 : rDb.err with
  | some e => exact Or.inl ⟨e, rfl, by simp [h1]⟩
  | none =>
    cases h2 : (fc rDb.status).err with
    | some e => exact Or.inr (Or.inl ⟨rfl, e, rfl, by simp [h1, h2]⟩)
    | none =>
      cases h3 : (fs (fc rDb.status).status).err with
      | some e => exact Or.inr (Or.inr (Or.inl ⟨rfl, rfl, e, rfl, by simp [h1, h2, h3]⟩))
      | none =>
        refine Or.inr (Or.inr (Or.inr ⟨rfl, rfl, rfl, ?_⟩))
        simp only [h1, h2, h3]
        split <;> rfl

theorem provisionInfrastructure_ready (o : Oracle) (app : Application)
    (h0 : app.status.infrastructureReady = false) :
    ((provisionInfrastructure o app).status.infrastructureReady = true →
      (app.needsDatabase = true →
        (provisionInfrastructure o app).status.databaseEndpoint ≠ "") ∧
      (app.needsCache = true →
        (provisionInfrastructure o app).status.redisEndpoint ≠ "") ∧
      (app.needsStorage = true → app.isLocalS3 = true →
        (provisionInfrastructure o app).status.s3Endpoint ≠ "") ∧
      (app.needsStorage = true → app.isLocalS3 = false →
        (provisionInfrastructure o app).status.s3BucketName ≠ "")) ∧
    ((provisionInfrastructure o app).err = none →
      (provisionInfrastructure o app).status.infrastructureReady = true) := by
  have hfd := provisionDatabaseStep_frame o app
  have hcases := provisionInfraAux_cases o.updInfra (provisionDatabaseStep o app)
    (fun st => provisionCacheStep o { app with status := st })
    (fun st => provisionStorageStep o { app with status := st })
  unfold provisionInfrastructure
  rcases hcases with ⟨e, h1, hst, herr⟩ | ⟨h1, e, h2, hst, herr⟩ |
    ⟨h1, h2, e, h3, hst, herr⟩ | ⟨h1, h2, h3, hst⟩
  · constructor
    · intro hready
      rw [hst] at hready
      rw [hfd.2.2.2.1, h0] at hready
      exact absurd hready (by simp)
    · intro hnone
      rw [herr] at hnone
      exact absurd hnone (by simp)
  · have hfc := provisionCacheStep_frame o { app with status := (provisionDatabaseStep o app).status }
    constructor
    · intro hready
      rw [hst] at hready
      simp [hfc, hfd, h0] at hready
    · intro hnone
      rw [herr] at hnone
      exact absurd hnone (by simp)
  · have hfc := provisionCacheStep_frame o { app with status := (provisionDatabaseStep o app).status }
    have hfs := provisionStorageStep_frame o
      { app with status := (provisionCacheStep o
          { app with status := (provisionDatabaseStep o app).status }).status }
    constructor
    · intro hready
      rw [hst] at hready
      simp [hfs, hfc, hfd, h0] at hready
    · intro hnone
      rw [herr] at hnone
      exact absurd hnone (by simp)
  · have hfc := provisionCacheStep_frame o { app with status := (provisionDatabaseStep o app).status }
    have hfs := provisionStorageStep_frame o
      { app with status := (provisionCacheStep o
          { app with status := (provisionDatabaseStep o app).status }).status }
    constructor
    · intro _
      refine ⟨fun hneed => ?_, fun hneed => ?_, fun hneed hl => ?_, fun hneed hnl => ?_⟩
      · rw [hst]
        simp only at *
        show (provisionStorageStep o _).status.databaseEndpoint ≠ ""
        rw [hfs.2.2.2.2.1]
        show (provisionCacheStep o _).status.databaseEndpoint ≠ ""
        rw [hfc.2.2.2.2.1]
        show (provisionDatabaseStep o app).status.databaseEndpoint ≠ ""
        exact provisionDatabaseStep_ok o app h1 hneed
      · rw [hst]
        simp only at *
        show (provisionStorageStep o _).status.redisEndpoint ≠ ""
        rw [hfs.2.2.2.2.2.2.1]
        show (provisionCacheStep o _).status.redisEndpoint ≠ ""
        exact provisionCacheStep_ok o _ h2 (by simpa using hneed)
      · rw [hst]
        simp only at *
        show (provisionStorageStep o _).status.s3Endpoint ≠ ""
        exact (provisionStorageStep_ok o _ h3 (by simpa using hneed)).1 (by simpa using hl)
      · rw [hst]
        simp only at *
        show (provisionStorageStep o _).status.s3BucketName ≠ ""
        exact (provisionStorageStep_ok o _ h3 (by simpa using hneed)).2 (by simpa using hnl)
    · intro _
      rw [hst]

/-- A record requesting only a locally placed database. -/
def localDbApp : Application :=
  { name := "w",
    spec := { image := "img",
              infrastructure := { postgresql := some { version := "14.9" } } } }

/-- C2 counterexample: provisioning `cloudS3App` (an object store with cloud
placement) succeeds and stores `infrastructureReady = true`, yet the
recorded `S3Endpoint` is empty — `provisionAWSS3` records only a bucket
name, so "ready iff every requested kind has a non-empty endpoint" fails. -/
theorem C2_infra_ready_cex :
    (reconcileStep {} cloudS3App).status.infrastructureReady = true ∧
    cloudS3App.needsStorage = true ∧
    (reconcileStep {} cloudS3App).status.s3Endpoint = "" :=
  ⟨rfl, rfl, rfl⟩

/-- C2 (amended): after a reconciliation pass on a record in its initial
observed state, if `infrastructureReady` is true then every requested kind
has recorded its provisioning artifact — a non-empty endpoint for the
database and the cache, and for the object store a non-empty endpoint under
local placement but only a non-empty bucket name under cloud placement;
conversely a pass that completes provisioning (no error, 10-second requeue)
stores `infrastructureReady = true`. -/
theorem C2_infra_ready (o : Oracle) (app : Application) (h0 : app.status = {}) :
    ((reconcileStep o app).status.infrastructureReady = true →
      (app.needsDatabase = true → (reconcileStep o app).status.databaseEndpoint ≠ "") ∧
      (app.needsCache = true → (reconcileStep o app).status.redisEndpoint ≠ "") ∧
      (app.needsStorage = true → app.isLocalS3 = true →
        (reconcileStep o app).status.s3Endpoint ≠ "") ∧
      (app.needsStorage = true → app.isLocalS3 = false →
        (reconcileStep o app).status.s3BucketName ≠ "")) ∧
    ((Reconcile o (.found app)).err = none →
      (Reconcile o (.found app)).requeueAfterSeconds = some 10 →
      (reconcileStep o app).status.infrastructureReady = true) := by
  have hph : app.status.phase = "" := by rw [h0]
  have hrd : app.status.infrastructureReady = false := by rw [h0]
  unfold reconcileStep Reconcile ReconcileRes.storedApp
  cases hv : app.validateSpec with
  | some v =>
    refine ⟨?_, ?_⟩ <;> simp only [hv] <;> split <;> simp [hrd]
  | none =>
    simp only [hv]
    unfold reconcileApplication
    rw [if_pos (Or.inl hph : app.status.phase = "" ∨ app.status.phase = phasePending)]
    have hmem1rd : (app.updateStatus phaseProvisioningInfra
        "Analyzing environment and provisioning infrastructure").status.infrastructureReady =
        false := by simp [hrd]
    have hpr := provisionInfrastructure_ready o (app.updateStatus phaseProvisioningInfra
      "Analyzing environment and provisioning infrastructure") hmem1rd
    by_cases hup : o.updPhase = true
    · simp only [hup, if_true]
      cases hperr : (provisionInfrastructure o (app.updateStatus phaseProvisioningInfra
          "Analyzing environment and provisioning infrastructure")).err with
      | some e =>
        simp only [hperr]
        constructor
        · intro hready
          by_cases hf : o.updFail = true
          · simp only [hf, if_true] at hready ⊢
            simp only [Application.updateStatus] at hready ⊢
            obtain ⟨hd, hc, hs1, hs2⟩ := hpr.1 (by simpa using hready)
            refine ⟨fun hneed => ?_, fun hneed => ?_, fun hneed hl => ?_, fun hneed hnl => ?_⟩
            · simpa using hd (by simpa using hneed)
            · simpa using hc (by simpa using hneed)
            · simpa using hs1 (by simpa using hneed) (by simpa using hl)
            · simpa using hs2 (by simpa using hneed) (by simpa using hnl)
          · simp only [hf] at hready ⊢
            simp at hready
            simp [hrd] at hready
        · intro _ hq
          simp at hq
      | none =>
        simp only [hperr]
        constructor
        · intro hready
          obtain ⟨hd, hc, hs1, hs2⟩ := hpr.1 (by simpa using hready)
          refine ⟨fun hneed => ?_, fun hneed => ?_, fun hneed hl => ?_, fun hneed hnl => ?_⟩
          · simpa using hd (by simpa using hneed)
          · simpa using hc (by simpa using hneed)
          · simpa using hs1 (by simpa using hneed) (by simpa using hl)
          · simpa using hs2 (by simpa using hneed) (by simpa using hnl)
        · intro _ _
          simpa using hpr.2 hperr
    · simp only [hup]
      constructor
      · intro hready
        simp [hrd] at hready
      · intro herr
        simp at herr

/-- C2 witness: a pass on `localDbApp` (fresh record, local database only)
succeeds, stores `infrastructureReady = true`, and the recorded database
endpoint is non-empty. -/
theorem C2_infra_ready_witness :
    (reconcileStep {} localDbApp).status.infrastructureReady = true ∧
    (reconcileStep {} localDbApp).status.databaseEndpoint ≠ "" := by
  have h := C2_infra_ready {} localDbApp rfl
  exact ⟨h.2 rfl rfl, (h.1 (h.2 rfl rfl)).1 rfl⟩

/-! ## Claim C4: Deploying-phase readiness gating -/

/-- A record with 3 declared replicas mid-deployment. -/
def deployingApp : Application :=
  { name := "demo", spec := { image := "nginx", replicas := 3 },
    status := { phase := "Deploying", infrastructureReady := true } }

/-- C4 counterexample: with the workload reporting 2 of 3 ready replicas,
the pass records 2 only in its in-memory copy; the stored observed state
still carries the old count 0 — the partial ready count is not persisted
(there is no status write on this path). -/
theorem C4_deploying_cex :
    (reconcileApplication { deploymentReadyReplicas := some 2 }
      deployingApp).mem.status.readyReplicas = 2 ∧
    (Reconcile { deploymentReadyReplicas := some 2 }
      (.found deployingApp)).storedApp.status.readyReplicas = 0 ∧
    (Reconcile { deploymentReadyReplicas := some 2 }
      (.found deployingApp)).requeueAfterSeconds = some 15 :=
  ⟨rfl, rfl, rfl⟩

/-- C4 (amended): when reconcile runs on a valid record in phase `Deploying`
and the workload reports fewer ready replicas than resolved, the pass
records the partial count in its in-memory copy only — the stored record is
unchanged — keeps phase `Deploying` and requeues after 15 seconds; when the
readiness query fails, nothing changes and the requeue is 30 seconds. -/
theorem C4_deploying (o : Oracle) (app : Application) (n : Int)
    (hv : app.validateSpec = none) (hph : app.status.phase = phaseDeploying) :
    (o.deploymentReadyReplicas = some n → n < app.getReplicas →
      (Reconcile o (.found app)).stored = some app ∧
      (Reconcile o (.found app)).requeueAfterSeconds = some 15 ∧
      (Reconcile o (.found app)).err = none ∧
      (reconcileApplication o app).mem.status.readyReplicas = n ∧
      (reconcileApplication o app).mem.status.phase = phaseDeploying) ∧
    (o.deploymentReadyReplicas = none →
      (Reconcile o (.found app)).stored = some app ∧
      (reconcileApplication o app).mem = app ∧
      (Reconcile o (.found app)).requeueAfterSeconds = some 30 ∧
      (Reconcile o (.found app)).err = none) := by
  have hc1 : ¬(app.status.phase = "" ∨ app.status.phase = phasePending) := by
    rw [hph]; decide
  have hc2 : ¬(app.status.phase = phaseProvisioningInfra ∧
      app.status.infrastructureReady = true) := by
    intro hcon
    rw [hph] at hcon
    exact absurd hcon.1 (by decide)
  unfold Reconcile reconcileApplication
  simp only [hv]
  rw [if_neg hc1, if_neg hc2, if_pos hph]
  constructor
  · intro hn hlt
    have hne : ¬(n = app.getReplicas) := Int.ne_of_lt hlt
    unfold checkApplicationReady
    simp only [hn, hne, if_false]
    exact ⟨rfl, rfl, rfl, rfl, hph⟩
  · intro hn
    unfold checkApplicationReady
    rw [hn]
    exact ⟨rfl, rfl, rfl, rfl⟩

/-- C4 witness: the amended claim evaluated on `deployingApp` with a report
of 2 of 3 ready replicas, and on a failing readiness query. -/
theorem C4_deploying_witness :
    (Reconcile { deploymentReadyReplicas := some 2 } (.found deployingApp)).stored =
      some deployingApp ∧
    (Reconcile { deploymentReadyReplicas := some 2 }
      (.found deployingApp)).requeueAfterSeconds = some 15 ∧
    (Reconcile {} (.found deployingApp)).requeueAfterSeconds = some 30 := by
  have h2 := C4_deploying { deploymentReadyReplicas := some 2 } deployingApp 2 rfl rfl
  have h0 := C4_deploying {} deployingApp 0 rfl rfl
  obtain ⟨ha, hb, -, -, -⟩ := h2.1 rfl (by decide)
  exact ⟨ha, hb, (h0.2 rfl).2.2.1⟩

/-! ## Claim C5: error containment at the dispatch boundary -/

/-- C5 counterexample: a failing store read propagates to the trigger
mechanism as a raw error, it is not converted into a status/requeue
outcome. -/
theorem C5_error_containment_cex :
    (Reconcile {} (.getErr "connection refused")).err = some "connection refused" := rfl

/-- C5 (amended): provisioning, synthesis and readiness-query failures are
all converted into a status/phase update plus a fixed requeue delay; raw
errors escape only from the store itself — a failing record read, or a
failing status write at the validation-failure, phase-advance or
ready-transition persist sites.  When the read succeeds and those writes
succeed, reconcile never returns an error. -/
theorem C5_error_containment (o : Oracle) (g : GetResult)
    (h1 : o.updPhase = true) (h2 : o.updReady = true) (h3 : o.updValid = true)
    (h4 : ∀ m, g ≠ GetResult.getErr m) :
    (Reconcile o g).err = none := by
  cases g with
  | notFound => rfl
  | getErr m => exact absurd rfl (h4 m)
  | found app =>
    simp only [Reconcile]
    cases hv : app.validateSpec with
    | some v => simp [hv, h3]
    | none =>
      simp only [hv]
      show (reconcileApplication o app).err = none
      unfold reconcileApplication
      split
      · simp only [h1, if_true]
        cases hperr : (provisionInfrastructure o (app.updateStatus phaseProvisioningInfra
            "Analyzing environment and provisioning infrastructure")).err <;>
          simp [hperr]
      · split
        · simp only [h1, if_true]
          cases hd : (createOrUpdateDeployment o (app.updateStatus phaseDeploying
              "Creating Kubernetes resources")).1 with
          | some e => simp [hd]
          | none =>
            cases hsvc : (createOrUpdateService o (app.updateStatus phaseDeploying
                "Creating Kubernetes resources")).1 <;> simp [hd, hsvc]
        · split
          · cases hcr : checkApplicationReady o app with
            | none => simp [hcr]
            | some pr =>
              obtain ⟨ready, st⟩ := pr
              cases ready <;> simp [hcr, h2]
          · split <;> simp

/-- C5 witness: with a present record and all status writes succeeding,
the pass returns no error. -/
theorem C5_error_containment_witness :
    (Reconcile {} (.found deployingApp)).err = none :=
  C5_error_containment {} (.found deployingApp) rfl rfl rfl
    (fun _ h => GetResult.noConfusion h)

/-! ## Claim C8: ready-replica bound -/

theorem provisionInfrastructure_frame (o : Oracle) (app : Application) :
    (provisionInfrastructure o app).status.readyReplicas = app.status.readyReplicas ∧
    (provisionInfrastructure o app).status.phase = app.status.phase ∧
    (provisionInfrastructure o app).status.message = app.status.message := by
  have hfd := provisionDatabaseStep_frame o app
  have hfc := provisionCacheStep_frame o { app with status := (provisionDatabaseStep o app).status }
  have hfs := provisionStorageStep_frame o
    { app with status := (provisionCacheStep o
        { app with status := (provisionDatabaseStep o app).status }).status }
  have hcases := provisionInfraAux_cases o.updInfra (provisionDatabaseStep o app)
    (fun st => provisionCacheStep o { app with status := st })
    (fun st => provisionStorageStep o { app with status := st })
  unfold provisionInfrastructure
  rcases hcases with ⟨e, h1, hst, herr⟩ | ⟨h1, e, h2, hst, herr⟩ |
    ⟨h1, h2, e, h3, hst, herr⟩ | ⟨h1, h2, h3, hst⟩ <;>
    rw [hst] <;> simp [hfs, hfc, hfd]

/-- C8 counterexample: in phase `Deploying` with the workload over-reporting
(5 ready replicas while 3 are resolved), the pass copies 5 unchecked into
the observed-state record it holds in memory, exceeding the resolved
count. -/
theorem C8_ready_bound_cex :
    (reconcileApplication { deploymentReadyReplicas := some 5 }
      deployingApp).mem.status.readyReplicas = 5 ∧
    deployingApp.getReplicas = 3 :=
  ⟨rfl, rfl⟩

/-- C8 (amended): `readyReplicaCount` is only updated as a result of
observing the workload (any pass outside `Deploying` leaves it unchanged in
memory), and it never exceeds the resolved replica count provided the
workload never reports more ready replicas than resolved — the controller
itself copies the reported value unchecked. -/
theorem C8_ready_bound (o : Oracle) (app : Application)
    (hstart : app.status.readyReplicas ≤ app.getReplicas)
    (hworkload : ∀ n, o.deploymentReadyReplicas = some n → n ≤ app.getReplicas) :
    (Reconcile o (.found app)).storedApp.status.readyReplicas ≤ app.getReplicas ∧
    (reconcileApplication o app).mem.status.readyReplicas ≤ app.getReplicas ∧
    (app.status.phase ≠ phaseDeploying →
      (reconcileApplication o app).mem.status.readyReplicas = app.status.readyReplicas) := by
  have storedBound : (reconcileApplication o app).stored.status.readyReplicas ≤
      app.getReplicas := by
    unfold reconcileApplication
    split
    · simp only []
      split
      · have hfr := (provisionInfrastructure_frame o (app.updateStatus phaseProvisioningInfra
          "Analyzing environment and provisioning infrastructure")).1
        cases hperr : (provisionInfrastructure o (app.updateStatus phaseProvisioningInfra
            "Analyzing environment and provisioning infrastructure")).err with
        | some e =>
          simp only [hperr]
          split <;> simp [hfr, hstart]
        | none => simp [hperr, hfr, hstart]
      · simpa using hstart
    · split
      · split
        · cases hd : (createOrUpdateDeployment o (app.updateStatus phaseDeploying
              "Creating Kubernetes resources")).1 with
          | some e =>
            simp only [hd]
            split <;> simpa using hstart
          | none =>
            simp only [hd]
            cases hsvc : (createOrUpdateService o (app.updateStatus phaseDeploying
                "Creating Kubernetes resources")).1 with
            | some e =>
              simp only [hsvc]
              split <;> simpa using hstart
            | none => simp only [hsvc]; simpa using hstart
        · simpa using hstart
      · split
        · cases hcr : o.deploymentReadyReplicas with
          | none => simp [checkApplicationReady, hcr, hstart]
          | some n =>
            have hb := hworkload n hcr
            by_cases he : n = app.getReplicas
            · simp only [checkApplicationReady, hcr, he, if_true]
              split <;> simp [hstart, he, hb]
            · simp only [checkApplicationReady, hcr, he, if_false]
              simpa using hstart
        · split <;> simpa using hstart
  have memBound : (reconcileApplication o app).mem.status.readyReplicas ≤
      app.getReplicas := by
    unfold reconcileApplication
    split
    · simp only []
      split
      · have hfr := (provisionInfrastructure_frame o (app.updateStatus phaseProvisioningInfra
          "Analyzing environment and provisioning infrastructure")).1
        cases hperr : (provisionInfrastructure o (app.updateStatus phaseProvisioningInfra
            "Analyzing environment and provisioning infrastructure")).err with
        | some e => simp [hperr, hfr, hstart]
        | none => simp [hperr, hfr, hstart]
      · simpa using hstart
    · split
      · split
        · cases hd : (createOrUpdateDeployment o (app.updateStatus phaseDeploying
              "Creating Kubernetes resources")).1 with
          | some e => simp [hd, hstart]
          | none =>
            simp only [hd]
            cases hsvc : (createOrUpdateService o (app.updateStatus phaseDeploying
                "Creating Kubernetes resources")).1 with
            | some e => simp [hsvc, hstart]
            | none => simp [hsvc, hstart]
        · simpa using hstart
      · split
        · cases hcr : o.deploymentReadyReplicas with
          | none => simp [checkApplicationReady, hcr, hstart]
          | some n =>
            have hb := hworkload n hcr
            by_cases he : n = app.getReplicas
            · simp only [checkApplicationReady, hcr, he, if_true]
              split <;> simp [hstart, he, hb]
            · simp only [checkApplicationReady, hcr, he, if_false]
              simpa using hb
        · split <;> simpa using hstart
  have memFrame : app.status.phase ≠ phaseDeploying →
      (reconcileApplication o app).mem.status.readyReplicas = app.status.readyReplicas := by
    intro hnd
    unfold reconcileApplication
    split
    · simp only []
      split
      · have hfr := (provisionInfrastructure_frame o (app.updateStatus phaseProvisioningInfra
          "Analyzing environment and provisioning infrastructure")).1
        cases hperr : (provisionInfrastructure o (app.updateStatus phaseProvisioningInfra
            "Analyzing environment and provisioning infrastructure")).err with
        | some e => simp [hperr, hfr]
        | none => simp [hperr, hfr]
      · simp
    · split
      · split
        · cases hd : (createOrUpdateDeployment o (app.updateStatus phaseDeploying
              "Creating Kubernetes resources")).1 with
          | some e => simp [hd]
          | none =>
            simp only [hd]
            cases hsvc : (createOrUpdateService o (app.updateStatus phaseDeploying
                "Creating Kubernetes resources")).1 with
            | some e => simp [hsvc]
            | none => simp [hsvc]
        · simp
      · split <;> rfl
  simp only [Reconcile, ReconcileRes.storedApp]
  cases hv : app.validateSpec with
  | some v =>
    refine ⟨?_, memBound, memFrame⟩
    simp only [hv]
    split <;> simpa using hstart
  | none =>
    refine ⟨?_, memBound, memFrame⟩
    simp only [hv]
    simpa using storedBound

/-- C8 witness: the amended bound evaluated on `deployingApp` with a
conforming workload report of 2 of 3. -/
theorem C8_ready_bound_witness :
    (reconcileApplication { deploymentReadyReplicas := some 2 }
      deployingApp).mem.status.readyReplicas ≤ deployingApp.getReplicas :=
  (C8_ready_bound { deploymentReadyReplicas := some 2 } deployingApp (by decide)
    (fun n hn => by cases hn; decide)).2.1

/-! ## Claim C3: phase monotonicity -/

theorem reconcileStep_phase (o : Oracle) (app : Application) :
    phaseRank app.status.phase ≤ phaseRank (reconcileStep o app).status.phase ∧
    (app.status.phase = phaseFailed → (reconcileStep o app).status.phase = phaseFailed) ∧
    (validPhase app.status.phase = true →
      validPhase (reconcileStep o app).status.phase = true) := by
  unfold reconcileStep Reconcile ReconcileRes.storedApp
  cases hv : app.validateSpec with
  | some v =>
    simp only [hv]
    by_cases huv : o.updValid = true
    · rw [if_pos huv]
      refine ⟨?_, fun _ => rfl, fun _ => ?_⟩
      · simp only [Option.getD_some, updateStatus_phase]
        exact Nat.le_trans (phaseRank_le_four _) (by decide)
      · simp only [Option.getD_some, updateStatus_phase]
        decide
    · rw [if_neg huv]
      exact ⟨Nat.le_refl _, fun h => h, fun h => h⟩
  | none =>
    simp only [hv]
    show phaseRank app.status.phase ≤
        phaseRank (reconcileApplication o app).stored.status.phase ∧
      (app.status.phase = phaseFailed →
        (reconcileApplication o app).stored.status.phase = phaseFailed) ∧
      (validPhase app.status.phase = true →
        validPhase (reconcileApplication o app).stored.status.phase = true)
    unfold reconcileApplication
    by_cases hc1 : app.status.phase = "" ∨ app.status.phase = phasePending
    · rw [if_pos hc1]
      have hrank0 : phaseRank app.status.phase = 0 := by
        rcases hc1 with h | h <;> rw [h] <;> decide
      have hcontra : ¬(app.status.phase = phaseFailed) := by
        rcases hc1 with h | h <;> rw [h] <;> decide
      by_cases hup : o.updPhase = true
      · simp only [hup, if_true]
        have hfr := (provisionInfrastructure_frame o (app.updateStatus phaseProvisioningInfra
          "Analyzing environment and provisioning infrastructure")).2.1
        cases hperr : (provisionInfrastructure o (app.updateStatus phaseProvisioningInfra
            "Analyzing environment and provisioning infrastructure")).err with
        | some e =>
          simp only [hperr]
          split
          · refine ⟨hrank0 ▸ Nat.zero_le _, fun _ => by simp, fun _ => by simp [validPhase]⟩
          · refine ⟨hrank0 ▸ Nat.zero_le _, fun hF => absurd hF hcontra, fun _ => by simp [validPhase]⟩
        | none =>
          simp only [hperr]
          refine ⟨hrank0 ▸ Nat.zero_le _, fun hF => absurd hF hcontra, fun _ => ?_⟩
          simp [hfr, validPhase]
      · simp only [hup, if_false]
        exact ⟨Nat.le_refl _, fun h => h, fun h => h⟩
    · rw [if_neg hc1]
      by_cases hc2 : app.status.phase = phaseProvisioningInfra ∧
          app.status.infrastructureReady = true
      · rw [if_pos hc2]
        have hrank1 : phaseRank app.status.phase = 1 := by rw [hc2.1]; decide
        have hcontra : ¬(app.status.phase = phaseFailed) := by rw [hc2.1]; decide
        by_cases hup : o.updPhase = true
        · simp only [hup, if_true]
          cases hd : (createOrUpdateDeployment o (app.updateStatus phaseDeploying
              "Creating Kubernetes resources")).1 with
          | some e =>
            simp only [hd]
            split
            · refine ⟨?_, fun _ => by simp, fun _ => by simp [validPhase]⟩
              rw [hrank1]
              simp only [updateStatus_phase]
              decide
            · refine ⟨?_, fun hF => absurd hF hcontra, fun _ => by simp [validPhase]⟩
              rw [hrank1]
              simp only [updateStatus_phase]
              decide
          | none =>
            simp only [hd]
            cases hsvc : (createOrUpdateService o (app.updateStatus phaseDeploying
                "Creating Kubernetes resources")).1 with
            | some e =>
              simp only [hsvc]
              split
              · refine ⟨?_, fun _ => by simp, fun _ => by simp [validPhase]⟩
                rw [hrank1]
                simp only [updateStatus_phase]
                decide
              · refine ⟨?_, fun hF => absurd hF hcontra, fun _ => by simp [validPhase]⟩
                rw [hrank1]
                simp only [updateStatus_phase]
                decide
            | none =>
              simp only [hsvc]
              refine ⟨?_, fun hF => absurd hF hcontra, fun _ => by simp [validPhase]⟩
              rw [hrank1]
              simp only [updateStatus_phase]
              decide
        · simp only [hup, if_false]
          exact ⟨Nat.le_refl _, fun h => h, fun h => h⟩
      · rw [if_neg hc2]
        by_cases hc3 : app.status.phase = phaseDeploying
        · rw [if_pos hc3]
          have hrank2 : phaseRank app.status.phase = 2 := by rw [hc3]; decide
          have hcontra : ¬(app.status.phase = phaseFailed) := by rw [hc3]; decide
          cases hcr : checkApplicationReady o app with
          | none => exact ⟨Nat.le_refl _, fun h => h, fun h => h⟩
          | some pr =>
            obtain ⟨ready, st⟩ := pr
            simp only [hcr]
            cases ready with
            | true =>
              simp only [if_pos rfl]
              by_cases hur : o.updReady = true
              · simp only [hur, if_true]
                refine ⟨?_, fun hF => absurd hF hcontra, fun _ => by simp [validPhase]⟩
                rw [hrank2]
                simp only [updateStatus_phase]
                decide
              · simp only [hur, if_false]
                exact ⟨Nat.le_refl _, fun h => h, fun h => h⟩
            | false =>
              simp only [if_neg (by decide : ¬(false = true))]
              exact ⟨Nat.le_refl _, fun h => h, fun h => h⟩
        · rw [if_neg hc3]
          split
          · exact ⟨Nat.le_refl _, fun h => h, fun h => h⟩
          · exact ⟨Nat.le_refl _, fun h => h, fun h => h⟩

theorem reconcileTrace_headEq (os : List Oracle) (app : Application) :
    (reconcileTrace os app).head? = some app := by
  cases os <;> rfl

/-- C3: over any sequence of reconcile calls on one record with no external
edits, consecutive stored phases never decrease in rank (with `Failed`
maximal), a `Failed` phase is never left, and phases stay within the
controller's phase set — so the stored phase sequence is a subsequence of
Pending, ProvisioningInfrastructure, Deploying, Ready, possibly terminating
in Failed. -/
theorem C3_phase_monotonic (os : List Oracle) (app : Application) :
    List.Chain' (fun a b =>
      phaseRank a.status.phase ≤ phaseRank b.status.phase ∧
      (a.status.phase = phaseFailed → b.status.phase = phaseFailed) ∧
      (validPhase a.status.phase = true → validPhase b.status.phase = true))
      (reconcileTrace os app) := by
  induction os generalizing app with
  | nil => simp [reconcileTrace]
  | cons o rest ih =>
    show List.Chain' _ (app :: reconcileTrace rest (reconcileStep o app))
    rw [List.chain'_cons']
    refine ⟨?_, ih _⟩
    intro b hb
    rw [reconcileTrace_headEq] at hb
    cases hb
    exact reconcileStep_phase o app

end Orion
